import Mathlib

/-!
Verification development for the databroom / janitor_bot DataFrame-cleaning
pipeline.  The Python source is shallowly embedded: tables are finite
column-oriented structures, Python floats are modelled as exact rationals,
stateful methods become explicit state passing, and in-place column-label
mutation is modelled with an explicit store of references.
-/

set_option autoImplicit false

/-- Python strings, modelled as lists of characters. -/
abbrev PyStr := List Char

/-- Conversion from a Lean string literal to the model of Python strings. -/
def pystr (s : String) : PyStr := s.toList

/-- The single-quote character, used when rendering Python/R string literals. -/
def squoteChar : Char := Char.ofNat 39

/-- Python float multiplication, modelled exactly on rationals.  Defined via
`mkRat` on numerator/denominator so it evaluates by kernel reduction. -/
def pyMul (a b : ℚ) : ℚ := mkRat (a.num * b.num) (a.den * b.den)

/-- Python float addition, modelled exactly on rationals. -/
def pyAdd (a b : ℚ) : ℚ := mkRat (a.num * b.den + b.num * a.den) (a.den * b.den)

/-- Python float subtraction, modelled exactly on rationals. -/
def pySub (a b : ℚ) : ℚ := mkRat (a.num * b.den - b.num * a.den) (a.den * b.den)

/-- Division of a Python float by a (nonnegative integer) count. -/
def divNat (a : ℚ) (n : Nat) : ℚ := mkRat a.num (a.den * n)

/-- Python `int(q)`: truncation toward zero. -/
def pyInt (q : ℚ) : ℤ := q.num.tdiv q.den

/-- Python `str.lower` on a single character (ASCII letter range; other
characters are returned unchanged, as in CPython outside Unicode tables). -/
def pyLowerChar (c : Char) : Char :=
  if 65 ≤ c.toNat ∧ c.toNat ≤ 90 then Char.ofNat (c.toNat + 32) else c

/-- `str.replace(' ', '_')` on a single character. -/
def underscoreChar (c : Char) : Char := if c = ' ' then '_' else c

/-- The composite per-character action of `.str.lower().str.replace(' ', '_')`. -/
def stdChar (c : Char) : Char := underscoreChar (pyLowerChar c)

/-- NFKD-style decomposition table restricted to the Latin letters relevant
here: an accented letter splits into its base letter followed by a combining
mark; ASCII characters decompose to themselves; any other character is kept
as itself (and will be dropped by the ASCII re-encoding step below). -/
def nfkdChar (c : Char) : List Char :=
  if c.toNat < 128 then [c]
  else if c = 'á' then ['a', Char.ofNat 769]
  else if c = 'é' then ['e', Char.ofNat 769]
  else if c = 'í' then ['i', Char.ofNat 769]
  else if c = 'ó' then ['o', Char.ofNat 769]
  else if c = 'ú' then ['u', Char.ofNat 769]
  else if c = 'ñ' then ['n', Char.ofNat 771]
  else if c = 'Á' then ['A', Char.ofNat 769]
  else if c = 'É' then ['E', Char.ofNat 769]
  else if c = 'Í' then ['I', Char.ofNat 769]
  else if c = 'Ó' then ['O', Char.ofNat 769]
  else if c = 'Ú' then ['U', Char.ofNat 769]
  else if c = 'Ñ' then ['N', Char.ofNat 771]
  else if c = 'ü' then ['u', Char.ofNat 776]
  else if c = 'Ü' then ['U', Char.ofNat 776]
  else [c]

/-- `unicodedata.normalize('NFKD', s).encode('ASCII', 'ignore').decode('utf-8')`:
decompose, then drop every non-ASCII residue. -/
def removeAccentsStr (s : PyStr) : PyStr :=
  (s.flatMap nfkdChar).filter (fun c => c.toNat < 128)

/-- A scalar cell value of a table (text, number or boolean). -/
inductive Cell where
  | str (s : PyStr)
  | num (q : ℚ)
  | boolean (b : Bool)
deriving DecidableEq, Repr

/-- A pandas DataFrame, modelled column-oriented: a row count plus ordered,
named columns of cells; `none` is a null (NaN) cell. -/
structure DataFrame where
  nrows : Nat
  cols : List (PyStr × List (Option Cell))
deriving DecidableEq, Repr

/-- A DataFrame is well-formed when every column has exactly `nrows` cells. -/
def DataFrame.WF (df : DataFrame) : Prop :=
  ∀ c ∈ df.cols, c.2.length = df.nrows

/-- `df.shape`: the (rows, columns) pair. -/
def DataFrame.shape (df : DataFrame) : Nat × Nat := (df.nrows, df.cols.length)

/-- Number of non-null cells of a column. -/
def nonNullCount (c : List (Option Cell)) : Nat := (c.filter Option.isSome).length

/-- Number of null cells of a column. -/
def nullCount (c : List (Option Cell)) : Nat := (c.filter Option.isNone).length

/-- `df.isnull().mean()` for one column: the fraction of null cells. -/
def colNullFrac (c : List (Option Cell)) : ℚ := mkRat (nullCount c) c.length

/-- `df.isnull().mean().mean() * 100`: the mean over columns of their null-cell
fraction, scaled to a percentage (the Recorder's missing-value statistic). -/
def percent_missing (df : DataFrame) : ℚ :=
  pyMul (divNat (df.cols.foldr (fun c acc => pyAdd (colNullFrac c.2) acc) (mkRat 0 1))
    df.cols.length) (mkRat 100 1)

/-- databroom/core/cleaning_ops.py `remove_empty_cols`: computes
`thresh = int(threshold * len(df))` and then `df.dropna(axis=1, thresh=thresh)`,
i.e. keeps exactly the columns with at least `thresh` non-null cells. -/
def remove_empty_cols (df : DataFrame) (threshold : ℚ := mkRat 9 10) : DataFrame :=
  let thresh : ℤ := pyInt (pyMul threshold (mkRat df.nrows 1))
  { df with cols := df.cols.filter (fun c => thresh ≤ (nonNullCount c.2 : ℤ)) }

/-- databroom/core/cleaning_ops.py `remove_empty_rows`:
`df.dropna(axis=0, how='all')` — drop the rows in which every cell is null. -/
def remove_empty_rows (df : DataFrame) : DataFrame :=
  let keep := (List.range df.nrows).filter
    (fun j => df.cols.any (fun c => (c.2.getD j none).isSome))
  { nrows := keep.length,
    cols := df.cols.map (fun c => (c.1, keep.map (fun j => c.2.getD j none))) }

/-- The column-name rewrite of `standardize_column_names`:
`.str.lower().str.replace(' ', '_')`. -/
def stdizeName (s : PyStr) : PyStr := (s.map pyLowerChar).map underscoreChar

/-- databroom/core/cleaning_ops.py `standardize_column_names`: lowercase every
column name and replace spaces with underscores (the Python function assigns
`df.columns` in place and returns `df`; the in-place aspect is modelled
separately by `standardize_column_names_inplace`). -/
def standardize_column_names (df : DataFrame) : DataFrame :=
  { df with cols := df.cols.map (fun c => (stdizeName c.1, c.2)) }

/-- databroom/core/cleaning_ops.py `normalize_column_names`: strip accents from
every column name via NFKD decomposition plus ASCII re-encoding. -/
def normalize_column_names (df : DataFrame) : DataFrame :=
  { df with cols := df.cols.map (fun c => (removeAccentsStr c.1, c.2)) }

/-- janitor_bot/core/cleaning_ops.py `standarize_column_names` (sic): the
janitor_bot module's identically-implemented variant of
`standardize_column_names`. -/
def standarize_column_names (df : DataFrame) : DataFrame :=
  { df with cols := df.cols.map (fun c => (stdizeName c.1, c.2)) }

/-- A Python scalar value as passed in operation parameters. -/
inductive PyScalar where
  | num (q : ℚ)
  | str (s : PyStr)
  | boolean (b : Bool)
  | none
deriving DecidableEq, Repr

/-- A Python value flowing through the Recorder: either a DataFrame or some
other (scalar) value. -/
inductive PyVal where
  | df (d : DataFrame)
  | scalar (v : PyScalar)
deriving DecidableEq, Repr

/-- Keyword arguments: an insertion-ordered name-to-value mapping. -/
abbrev KwArgs := List (PyStr × PyScalar)

/-- First-match lookup in a keyword-argument mapping (Python dict access). -/
def lookupKw : KwArgs → PyStr → Option PyScalar
  | [], _ => Option.none
  | (k, v) :: rest, key => if k = key then some v else lookupKw rest key

/-- The Python exceptions raised by the core. -/
inductive PyErr where
  | valueError (msg : PyStr)
  | typeError
deriving DecidableEq, Repr

/-- One entry of the pipeline's history list.  janitor_bot/core/command.py
appends the f-string
`"{timestamp} - {name} called. Parameters: {args}, {kwargs}{shape_info}"`;
the entry is therefore determined by exactly these interpolated components,
which this structure records: the timestamp, the function name, the exact
positional arguments (including the input DataFrame in first position), the
exact keyword arguments, and — when both the input and the result are
DataFrames — the before/after shapes.  The wrapper also computes
`percent_missing_before`/`percent_missing_after` into its `df_state`
dictionary, but the appended f-string does not interpolate them, so they are
not part of the entry. -/
structure LogEntry where
  timestamp : Nat
  funcName : PyStr
  argsLogged : List PyVal
  kwargsLogged : KwArgs
  shapeInfo : Option ((Nat × Nat) × (Nat × Nat))
deriving DecidableEq, Repr

/-- The wrapper's `df_state` capture before the call: if the first positional
argument is a DataFrame, its shape and percent-missing statistic. -/
def dfStateBefore (args : List PyVal) : Option ((Nat × Nat) × ℚ) :=
  match args with
  | PyVal.df d :: _ => some (d.shape, percent_missing d)
  | _ => Option.none

/-- The wrapper's `df_state` capture after the call: if the result is a
DataFrame, its shape and percent-missing statistic. -/
def dfStateAfter (res : PyVal) : Option ((Nat × Nat) × ℚ) :=
  match res with
  | PyVal.df d => some (d.shape, percent_missing d)
  | _ => Option.none

/-- The log entry appended for a successful wrapped call.  The shape
information is included only when both the before and after states captured a
DataFrame (the f-string's `shape_info` fragment); the percent-missing halves
of `df_state` are computed but dropped here, exactly as in the source. -/
def mkEntry (fname : PyStr) (args : List PyVal) (kwargs : KwArgs) (now : Nat)
    (res : PyVal) : LogEntry :=
  { timestamp := now, funcName := fname, argsLogged := args, kwargsLogged := kwargs,
    shapeInfo :=
      match dfStateBefore args, dfStateAfter res with
      | some b, some a => some (b.1, a.1)
      | _, _ => Option.none }

/-- janitor_bot/core/command.py `CleaningCommand`: wraps `f`; on success it
returns `f`'s result unchanged and appends one entry to the history list; if
`f` raises, the error propagates and the history list is returned unchanged
(nothing is appended).  The pipeline always supplies a history list, so the
`history_list is None` branch (no logging) is not modelled. -/
def CleaningCommand (fname : PyStr) (f : List PyVal → KwArgs → Except PyErr PyVal)
    (history_list : List LogEntry) (args : List PyVal) (kwargs : KwArgs) (now : Nat) :
    Except PyErr PyVal × List LogEntry :=
  match f args kwargs with
  | Except.error e => (Except.error e, history_list)
  | Except.ok res => (Except.ok res, history_list ++ [mkEntry fname args kwargs now res])

/-- janitor_bot/core/pipeline.py `avaiable_functions` (sic): the function
names of janitor_bot/core/cleaning_ops.py, as `inspect.getmembers` returns
them (alphabetically sorted). -/
def avaiable_functions : List PyStr :=
  [pystr "remove_empty_cols", pystr "remove_empty_rows", pystr "standarize_column_names"]

/-- Python call binding for `remove_empty_cols(df, threshold=0.9)` applied to
the extra positional arguments and keyword arguments forwarded by
`execute_operation`: the threshold may be given positionally or by keyword,
defaulting to `0.9`; any other binding (duplicate, extra or ill-typed
argument) is a `TypeError`, modelled as `none`. -/
def bindThreshold (args : List PyVal) (kwargs : KwArgs) : Option ℚ :=
  match args, kwargs with
  | [], [] => some (mkRat 9 10)
  | [PyVal.scalar (PyScalar.num q)], [] => some q
  | [], [(k, PyScalar.num q)] => if k = pystr "threshold" then some q else Option.none
  | _, _ => Option.none

/-- `getattr(cleaning_ops, name)` applied to the current table with the
forwarded arguments: dispatch to the janitor_bot operation library.  A call
whose arguments do not bind (Python `TypeError`) is `none`. -/
def dispatchOp (name : PyStr) (df : DataFrame) (args : List PyVal) (kwargs : KwArgs) :
    Option DataFrame :=
  if name = pystr "remove_empty_cols" then
    (bindThreshold args kwargs).map (fun t => remove_empty_cols df t)
  else if name = pystr "remove_empty_rows" then
    if args = [] ∧ kwargs = [] then some (remove_empty_rows df) else Option.none
  else if name = pystr "standarize_column_names" then
    if args = [] ∧ kwargs = [] then some (standarize_column_names df) else Option.none
  else Option.none

/-- A janitor_bot operation library function as a Python callable: the first
positional argument must be the DataFrame (otherwise the operation raises
`ValueError("Input must be a pandas DataFrame")`); failed argument binding is
a `TypeError`. -/
def liftOp (name : PyStr) : List PyVal → KwArgs → Except PyErr PyVal := fun a kw =>
  match a with
  | PyVal.df d :: rest =>
    match dispatchOp name d rest kw with
    | some r => Except.ok (PyVal.df r)
    | Option.none => Except.error PyErr.typeError
  | _ => Except.error (PyErr.valueError (pystr "Input must be a pandas DataFrame"))

/-- janitor_bot/core/pipeline.py `CleaningPipeline`.  `history` and
`current_operation` are attributes that no pipeline method defines; they are
created dynamically (on the Python instance's `__dict__`) only by
`Janitor.reset`, hence modelled as optional attributes that are absent
(`none`) until that assignment happens. -/
structure CleaningPipeline where
  df : DataFrame
  df_original : DataFrame
  operations : List PyStr
  history_list : List LogEntry
  history : Option (List LogEntry) := Option.none
  current_operation : Option (Option Unit) := Option.none
deriving DecidableEq, Repr

/-- `CleaningPipeline.__init__`: stores the caller's DataFrame as `df`, a copy
of it as `df_original`, the registered operation names, and an empty history. -/
def initPipeline (df : DataFrame) : CleaningPipeline :=
  { df := df, df_original := df, operations := avaiable_functions, history_list := [] }

/-- `CleaningPipeline.get_history`: returns a (defensive) copy of the history
list. -/
def CleaningPipeline.get_history (p : CleaningPipeline) : List LogEntry := p.history_list

/-- `CleaningPipeline.get_current_dataframe`. -/
def CleaningPipeline.get_current_dataframe (p : CleaningPipeline) : DataFrame := p.df

/-- The error message raised for an unregistered operation name. -/
def opNotAvailableMsg (op : PyStr) : PyStr :=
  pystr "Operation " ++ [squoteChar] ++ op ++ [squoteChar] ++
    pystr " is not available in the pipeline."

/-- janitor_bot/core/pipeline.py `CleaningPipeline.execute_operation`: raises
`ValueError` (the pipeline state untouched) when the name is not registered;
otherwise wraps the operation with `CleaningCommand` bound to this pipeline's
history list, invokes it on the current DataFrame, stores the result as the
new current DataFrame and returns it.  Errors raised by the wrapped call
propagate with the state unchanged (the wrapper appends nothing on failure).
The middle match arm (a successful call returning a non-DataFrame) is
unreachable for the registered operations. -/
def execute_operation (p : CleaningPipeline) (op : PyStr) (args : List PyVal)
    (kwargs : KwArgs) (now : Nat) : CleaningPipeline × Except PyErr DataFrame :=
  if op ∈ p.operations then
    match CleaningCommand op (liftOp op) p.history_list (PyVal.df p.df :: args) kwargs now with
    | (Except.ok (PyVal.df d), h2) =>
      ({ p with df := d, history_list := h2 }, Except.ok d)
    | (Except.ok (PyVal.scalar _), h2) =>
      ({ p with history_list := h2 }, Except.error PyErr.typeError)
    | (Except.error e, _) => (p, Except.error e)
  else (p, Except.error (PyErr.valueError (opNotAvailableMsg op)))

/-- Modelled from the spec: replaying one recorded operation against an
accumulated table — the record's function name is looked up in the registered
set and applied to the table with the record's own (non-table) arguments, as
`run_pipeline`/`execute` would (the replay driver itself is not among the
sources; spec §3 "replaying `history` against `original` in order", §4.3
`run_pipeline`). -/
def replayRecord (d : DataFrame) (e : LogEntry) : Option DataFrame :=
  if e.funcName ∈ avaiable_functions then
    dispatchOp e.funcName d (e.argsLogged.drop 1) e.kwargsLogged
  else Option.none

/-- Modelled from the spec: replaying a recorded history in order against a
fresh copy of the original table. -/
def replay (orig : DataFrame) (h : List LogEntry) : Option DataFrame :=
  h.foldl (fun acc e => acc.bind (fun d => replayRecord d e)) (some orig)

/-- The states a `CleaningPipeline` can reach: freshly constructed, or the
result of any successful `execute_operation` call on a reachable state
(failed calls return the state unchanged). -/
inductive Reaches : CleaningPipeline → Prop
  | init (df : DataFrame) : Reaches (initPipeline df)
  | step {p p2 : CleaningPipeline} {d : DataFrame} (op : PyStr) (args : List PyVal)
      (kwargs : KwArgs) (now : Nat) :
      Reaches p → execute_operation p op args kwargs now = (p2, Except.ok d) → Reaches p2

/-- janitor_bot/core/janitor.py `Janitor`: the facade; holds the caller's
DataFrame and the pipeline built from it. -/
structure Janitor where
  df : DataFrame
  pipeline : CleaningPipeline
deriving DecidableEq, Repr

/-- `Janitor.__init__`. -/
def Janitor.init (df : DataFrame) : Janitor := { df := df, pipeline := initPipeline df }

/-- `Janitor.get_history`: delegates to the pipeline. -/
def Janitor.get_history (j : Janitor) : List LogEntry := j.pipeline.get_history

/-- `Janitor.get_df`: delegates to the pipeline. -/
def Janitor.get_df (j : Janitor) : DataFrame := j.pipeline.get_current_dataframe

/-- janitor_bot/core/janitor.py `Janitor.reset`: assigns
`self.pipeline.df = self.pipeline.df_original.copy()`,
`self.pipeline.history = []` and `self.pipeline.current_operation = None`.
Note that the assignments target the attribute names `history` and
`current_operation`, which no pipeline method uses — the pipeline's log lives
in `history_list`, which this method leaves untouched. -/
def Janitor.reset (j : Janitor) : Janitor :=
  { j with pipeline :=
      { j.pipeline with df := j.pipeline.df_original,
                        history := some [],
                        current_operation := some Option.none } }

/-- `Janitor.remove_empty_cols(threshold=0.9)`: delegates to
`execute_operation('remove_empty_cols', threshold=threshold)` and returns the
facade. -/
def Janitor.remove_empty_cols (j : Janitor) (threshold : ℚ := mkRat 9 10) (now : Nat) :
    Janitor :=
  { j with pipeline :=
      (execute_operation j.pipeline (pystr "remove_empty_cols") []
        [(pystr "threshold", PyScalar.num threshold)] now).1 }

/-- A JSON-representable Python value handled by the History Serializer.
`num q npWrapped` with `npWrapped = true` models a numpy scalar wrapper
(`np.float64`, `np.int64`, …) holding the value `q`; `tup` models a Python
tuple (JSON-serialized as an array). -/
inductive JValue where
  | num (q : ℚ) (npWrapped : Bool)
  | str (s : PyStr)
  | boolean (b : Bool)
  | null
  | arr (l : List JValue)
  | obj (l : List (PyStr × JValue))
  | tup (l : List JValue)
deriving Repr

mutual

/-- databroom/core/pipeline_io.py `normalize_record`'s inner `convert`:
numpy scalars become plain numbers via `.item()`, dicts and lists/tuples are
converted recursively (both lists and tuples become lists), everything else
is returned unchanged.  (The three functions are the mutual recursion over
the value, its list elements and its dict entries.) -/
def normalize_record : JValue → JValue
  | JValue.num q _ => JValue.num q false
  | JValue.str s => JValue.str s
  | JValue.boolean b => JValue.boolean b
  | JValue.null => JValue.null
  | JValue.arr l => JValue.arr (normalizeRecList l)
  | JValue.obj l => JValue.obj (normalizeRecObj l)
  | JValue.tup l => JValue.arr (normalizeRecList l)

def normalizeRecList : List JValue → List JValue
  | [] => []
  | v :: vs => normalize_record v :: normalizeRecList vs

def normalizeRecObj : List (PyStr × JValue) → List (PyStr × JValue)
  | [] => []
  | (k, v) :: vs => (k, normalize_record v) :: normalizeRecObj vs

end

/-- The file system seen by the serializer: a map from paths to the (parsed)
JSON document stored at each path. -/
abbrev FileSys := PyStr → Option (List JValue)

/-- `path.endswith(suffix)`. -/
def pyEndswith (s suffix : PyStr) : Bool :=
  decide (s.drop (s.length - suffix.length) = suffix) && decide (suffix.length ≤ s.length)

/-- databroom/core/pipeline_io.py `save_pipeline`: normalizes every record,
opens `path` for writing (which truncates the file — this happens before the
extension check), then dumps the JSON document if the path ends in `.json`
and otherwise raises `ValueError("Unsupported pipeline file format.")`.
Returns the updated file system together with the Python result. -/
def save_pipeline (history : List JValue) (path : PyStr) (fs : FileSys) :
    FileSys × Except PyErr Bool :=
  let hist2 := history.map normalize_record
  if pyEndswith path (pystr ".json") then
    (fun p2 => if p2 = path then some hist2 else fs p2, Except.ok true)
  else
    (fun p2 => if p2 = path then some [] else fs p2,
      Except.error (PyErr.valueError (pystr "Unsupported pipeline file format.")))

/-- databroom/core/pipeline_io.py `load_pipeline`: the body is a bare
`return` — it ignores its argument, reads nothing, and yields Python `None`
regardless. -/
def load_pipeline (history_tracker : Option (List JValue)) : Option (List JValue) :=
  Option.none

/-- The example pipeline history from pipeline_io.py's `__main__` block:
`[{"function": "remove_empty_cols", "args": [], "kwargs": {"threshold": 0.9}},
{"function": "remove_empty_rows", "args": [], "kwargs": {}}]`. -/
def examplePipelineHistory : List JValue :=
  [JValue.obj [(pystr "function", JValue.str (pystr "remove_empty_cols")),
               (pystr "args", JValue.arr []),
               (pystr "kwargs", JValue.obj [(pystr "threshold", JValue.num (mkRat 9 10) false)])],
   JValue.obj [(pystr "function", JValue.str (pystr "remove_empty_rows")),
               (pystr "args", JValue.arr []),
               (pystr "kwargs", JValue.obj [])]]

/-- Decimal digits of a natural number (for rendering numeric literals). -/
def reprNat (n : Nat) : PyStr := Nat.toDigits 10 n

/-- Rendering of an integer. -/
def reprInt (i : ℤ) : PyStr :=
  if i < 0 then '-' :: reprNat i.natAbs else reprNat i.natAbs

/-- Rendering of a rational parameter value in generated code.  Python
renders the float's decimal form; the model renders the exact rational as
`num` when integral and `num/den` otherwise.  No verified claim depends on
this rendering. -/
def reprRat (q : ℚ) : PyStr :=
  if q.den = 1 then reprInt q.num else reprInt q.num ++ pystr "/" ++ reprNat q.den

/-- Python `repr` of a scalar parameter value. -/
def reprScalar : PyScalar → PyStr
  | PyScalar.num q => reprRat q
  | PyScalar.str s => [squoteChar] ++ s ++ [squoteChar]
  | PyScalar.boolean b => if b then pystr "True" else pystr "False"
  | PyScalar.none => pystr "None"

/-- `", ".join`-style interspersion of a separator (Python `str.join` and the
generator's explicit pipe-joining both have this shape). -/
def joinSep (sep : PyStr) : List PyStr → PyStr
  | [] => []
  | [x] => x
  | x :: xs => x ++ sep ++ joinSep sep xs

/-- Python `repr` of a parameter dict, `{'k': v, ...}`. -/
def reprDict (params : KwArgs) : PyStr :=
  pystr "\x7b" ++
    joinSep (pystr ", ")
      (params.map (fun kv => [squoteChar] ++ kv.1 ++ [squoteChar] ++ pystr ": " ++ reprScalar kv.2)) ++
  pystr "\x7d"

/-- The operation names that have an R/tidyverse mapping in
`CodeGenerator._python_to_r_operation`. -/
def rMappedNames : List PyStr :=
  [pystr "remove_empty_cols", pystr "remove_empty_rows", pystr "standardize_column_names",
   pystr "normalize_column_names", pystr "normalize_values", pystr "standardize_values"]

/-- databroom/generators/base.py `CodeGenerator._python_to_r_operation`:
per-operation lookup of the R/tidyverse equivalent; an operation with no
mapping yields the explicit placeholder comment
`"# TODO: Implement R equivalent for <name>(<params>)"`. -/
def python_to_r_operation (func_name : PyStr) (params : KwArgs) : PyStr :=
  if func_name = pystr "remove_empty_cols" then
    let threshold : ℚ :=
      match lookupKw params (pystr "threshold") with
      | some (PyScalar.num q) => q
      | _ => mkRat 9 10
    let na_threshold := pySub (mkRat 1 1) threshold
    pystr "select_if(~ mean(is.na(.)) < " ++ reprRat na_threshold ++ pystr ")"
  else if func_name = pystr "remove_empty_rows" then
    pystr "filter(!if_all(everything(), is.na))"
  else if func_name = pystr "standardize_column_names" then
    pystr "clean_names(case = " ++ [squoteChar] ++ pystr "snake" ++ [squoteChar] ++ pystr ")"
  else if func_name = pystr "normalize_column_names" then
    pystr "rename_with(~ stri_trans_general(., " ++ [squoteChar] ++ pystr "Latin-ASCII" ++
      [squoteChar] ++ pystr "))"
  else if func_name = pystr "normalize_values" then
    pystr "mutate(across(where(is.character), ~ stri_trans_general(., " ++ [squoteChar] ++
      pystr "Latin-ASCII" ++ [squoteChar] ++ pystr ")))"
  else if func_name = pystr "standardize_values" then
    pystr "mutate(across(where(is.character), ~ str_to_lower(str_replace_all(., " ++
      [squoteChar] ++ pystr " " ++ [squoteChar] ++ pystr ", " ++ [squoteChar] ++ pystr "_" ++
      [squoteChar] ++ pystr "))))"
  else
    pystr "# TODO: Implement R equivalent for " ++ func_name ++ pystr "(" ++ reprDict params ++ pystr ")"

/-- The python-target rendering of one stage: `<func>(<k={repr v}, ...>)`. -/
def pythonStageCall (fp : PyStr × KwArgs) : PyStr :=
  fp.1 ++ pystr "(" ++
    joinSep (pystr ", ") (fp.2.map (fun kv => kv.1 ++ pystr "=" ++ reprScalar kv.2)) ++ pystr ")"

/-- databroom/generators/base.py `CodeGenerator.generate_code`, applied to the
loaded history (ordered `(function_name, parameters)` pairs; in the source the
parameter dict of each pair is recovered from its recorded literal text by
`ast.literal_eval` in `load_history`).  Raises `ValueError` on an empty
history; for the python target it chains every stage onto one expression;
for the R target it maps each stage through `_python_to_r_operation`, keeps
the non-empty lines, and joins them with the pipe operator; for any other
language the initial empty code string is returned. -/
def generate_code (language : PyStr) (history : List (PyStr × KwArgs)) :
    Except PyErr PyStr :=
  if history = [] then
    Except.error (PyErr.valueError (pystr "No history available to generate code."))
  else if language = pystr "python" then
    Except.ok (pystr "broom_instance = broom_instance." ++
      joinSep (pystr ".") (history.map pythonStageCall))
  else if language = pystr "R" then
    Except.ok (joinSep (pystr " %>%\n  ")
      ((history.map (fun fp => python_to_r_operation fp.1 fp.2)).filter (fun l => ¬ l = [])))
  else Except.ok []

/-- Substring test: some position of the haystack starts with the needle. -/
def strContains (hay needle : PyStr) : Bool :=
  (List.range (hay.length + 1)).any (fun i => decide ((hay.drop i).take needle.length = needle))

/-- A reference to a Python object (for the in-place mutation model). -/
abbrev Ref := Nat

/-- A store assigning each reference its current DataFrame value. -/
abbrev Store := Ref → DataFrame

/-- The object graph set up by `CleaningPipeline.__init__`: `self.df = df`
keeps the caller's reference `dfRef` aliased, while
`self.df_original = df.copy()` stores a value copy of the caller's table at
the fresh reference `origRef`. -/
def pipeline_init_refs (dfRef origRef : Ref) (s : Store) : Store :=
  fun r => if r = origRef then s dfRef else s r

/-- `standardize_column_names` as the Python runtime executes it:
`df.columns = df.columns.str.lower().str.replace(' ', '_'); return df`
rewrites the column labels of the argument object itself and returns that
same object, not a copy. -/
def standardize_column_names_inplace (r : Ref) (s : Store) : Ref × Store :=
  (r, fun r2 => if r2 = r then standardize_column_names (s r) else s r2)

/-- `normalize_column_names` as the Python runtime executes it:
`df.columns = df.columns.map(remove_accents); return df` rewrites the column
labels of the argument object itself and returns that same object. -/
def normalize_column_names_inplace (r : Ref) (s : Store) : Ref × Store :=
  (r, fun r2 => if r2 = r then normalize_column_names (s r) else s r2)

/-- Helper recursion of `normalize_record` over list elements. -/
theorem normalizeRecList_map (l : List JValue) :
    normalizeRecList l = l.map normalize_record := by
  induction l with
  | nil => rfl
  | cons v vs ih => rw [normalizeRecList, ih, List.map_cons]

/-- Evaluating a valid code point back out of `Char.ofNat`. -/
theorem char_toNat_ofNat (n : Nat) (h : n.isValidChar) : (Char.ofNat n).toNat = n := by
  simp only [Char.ofNat, h, dite_true, reduceDIte]
  simp [Char.ofNatAux, Char.toNat, UInt32.toNat]

/-- `pyMul` agrees with rational multiplication. -/
theorem pyMul_eq (a b : ℚ) : pyMul a b = a * b := by
  rw [pyMul, Rat.mkRat_eq_div]
  push_cast
  rw [show (a * b) = ((a.num : ℚ) / a.den) * ((b.num : ℚ) / b.den) by
    rw [Rat.num_div_den, Rat.num_div_den], div_mul_div_comm]

/-- `pyAdd` agrees with rational addition. -/
theorem pyAdd_eq (a b : ℚ) : pyAdd a b = a + b := by
  have ha : ((a.den : ℚ)) ≠ 0 := by exact_mod_cast a.den_nz
  have hb : ((b.den : ℚ)) ≠ 0 := by exact_mod_cast b.den_nz
  rw [pyAdd, Rat.mkRat_eq_div]
  push_cast
  rw [show (a + b) = ((a.num : ℚ) / a.den) + ((b.num : ℚ) / b.den) by
    rw [Rat.num_div_den, Rat.num_div_den], div_add_div _ _ ha hb]
  ring_nf

/-- `divNat` agrees with rational division. -/
theorem divNat_eq (a : ℚ) (n : Nat) : divNat a n = a / n := by
  rw [divNat, Rat.mkRat_eq_div]
  push_cast
  rw [div_mul_eq_div_div, Rat.num_div_den]

/-- On nonnegative rationals, Python truncation is the floor. -/
theorem pyInt_eq_floor (q : ℚ) (h : 0 ≤ q) : pyInt q = ⌊q⌋ := by
  rw [Rat.floor_def]
  exact Int.tdiv_eq_ediv (Rat.num_nonneg.mpr h) (Int.natCast_nonneg q.den)

/-- `mkRat n 1` is the canonical embedding of `n`. -/
theorem mkRat_one_eq (n : ℤ) : mkRat n 1 = (n : ℚ) := by
  rw [Rat.mkRat_eq_div]
  norm_num

/-- `pyLowerChar` is idempotent. -/
theorem pyLowerChar_idem (c : Char) : pyLowerChar (pyLowerChar c) = pyLowerChar c := by
  by_cases h : 65 ≤ c.toNat ∧ c.toNat ≤ 90
  · have hv : (c.toNat + 32).isValidChar := by left; omega
    have hlow : pyLowerChar c = Char.ofNat (c.toNat + 32) := by rw [pyLowerChar, if_pos h]
    rw [hlow, pyLowerChar, if_neg (by rw [char_toNat_ofNat _ hv]; omega)]
  · have hlow : pyLowerChar c = c := by rw [pyLowerChar, if_neg h]
    rw [hlow, hlow]

/-- The per-character standardization step is idempotent. -/
theorem stdChar_idem (c : Char) : stdChar (stdChar c) = stdChar c := by
  by_cases h : 65 ≤ c.toNat ∧ c.toNat ≤ 90
  · have hv : (c.toNat + 32).isValidChar := by left; omega
    have hx : (Char.ofNat (c.toNat + 32)).toNat = c.toNat + 32 := char_toNat_ofNat _ hv
    have hlow : pyLowerChar c = Char.ofNat (c.toNat + 32) := by rw [pyLowerChar, if_pos h]
    have hxs : Char.ofNat (c.toNat + 32) ≠ ' ' := by
      intro hcontra
      have h2 : (Char.ofNat (c.toNat + 32)).toNat = Char.toNat ' ' := by rw [hcontra]
      rw [hx] at h2
      have h3 : Char.toNat ' ' = 32 := by decide
      omega
    have h1 : stdChar c = Char.ofNat (c.toNat + 32) := by
      rw [stdChar, hlow, underscoreChar, if_neg hxs]
    rw [h1, stdChar, pyLowerChar, if_neg (by rw [hx]; omega), underscoreChar, if_neg hxs]
  · have hlow : pyLowerChar c = c := by rw [pyLowerChar, if_neg h]
    by_cases hsp : c = ' '
    · have h1 : stdChar c = '_' := by rw [stdChar, hlow, underscoreChar, if_pos hsp]
      rw [h1]
      decide
    · have h1 : stdChar c = c := by rw [stdChar, hlow, underscoreChar, if_neg hsp]
      rw [h1, h1]

/-- `stdizeName` is the map of the composite per-character step. -/
theorem stdizeName_eq_map (s : PyStr) : stdizeName s = s.map stdChar := by
  rw [stdizeName, List.map_map]
  rfl

/-- `stdizeName` is idempotent. -/
theorem stdizeName_idem (s : PyStr) : stdizeName (stdizeName s) = stdizeName s := by
  rw [stdizeName_eq_map, stdizeName_eq_map, List.map_map]
  exact List.map_congr_left (fun c _ => stdChar_idem c)

/-- C9: `standardize_column_names` is idempotent: applying it twice yields the
same DataFrame (same column names, same data) as applying it once. -/
theorem standardize_column_names_idempotent (df : DataFrame) :
    standardize_column_names (standardize_column_names df) = standardize_column_names df := by
  unfold standardize_column_names
  simp only [List.map_map]
  refine congrArg (fun c => DataFrame.mk df.nrows c) ?_
  refine List.map_congr_left (fun c _ => ?_)
  simp [Function.comp, stdizeName_idem]

/-- C10: `standardize_column_names` and `normalize_column_names` mutate their
argument object in place and return that very object: after the pipeline
aliases the caller's table at `dfRef` and stores its copy at the fresh
`origRef`, each operation returns `dfRef` itself (no fresh copy), the table
held at `dfRef` is the label-rewritten one, and only the separately stored
copy at `origRef` still holds the caller's original table value. -/
theorem colname_ops_are_inplace (s : Store) (dfRef origRef : Ref) (hne : origRef ≠ dfRef) :
    (standardize_column_names_inplace dfRef (pipeline_init_refs dfRef origRef s)).1 = dfRef ∧
    (standardize_column_names_inplace dfRef (pipeline_init_refs dfRef origRef s)).2 dfRef =
      standardize_column_names (s dfRef) ∧
    (standardize_column_names_inplace dfRef (pipeline_init_refs dfRef origRef s)).2 origRef =
      s dfRef ∧
    (normalize_column_names_inplace dfRef (pipeline_init_refs dfRef origRef s)).1 = dfRef ∧
    (normalize_column_names_inplace dfRef (pipeline_init_refs dfRef origRef s)).2 dfRef =
      normalize_column_names (s dfRef) ∧
    (normalize_column_names_inplace dfRef (pipeline_init_refs dfRef origRef s)).2 origRef =
      s dfRef := by
  refine ⟨rfl, ?_, ?_, rfl, ?_, ?_⟩ <;>
    simp [standardize_column_names_inplace, normalize_column_names_inplace,
      pipeline_init_refs, hne, Ne.symm hne]

/-- Witness for `colname_ops_are_inplace` at a concrete store and references. -/
theorem colname_ops_are_inplace_witness :
    (1 : Ref) ≠ 0 ∧
    ((standardize_column_names_inplace 0
        (pipeline_init_refs 0 1 (fun _ => DataFrame.mk 1 [(pystr "A B", [Option.none])]))).1 = 0 ∧
      (standardize_column_names_inplace 0
        (pipeline_init_refs 0 1 (fun _ => DataFrame.mk 1 [(pystr "A B", [Option.none])]))).2 0 =
        standardize_column_names (DataFrame.mk 1 [(pystr "A B", [Option.none])]) ∧
      (standardize_column_names_inplace 0
        (pipeline_init_refs 0 1 (fun _ => DataFrame.mk 1 [(pystr "A B", [Option.none])]))).2 1 =
        DataFrame.mk 1 [(pystr "A B", [Option.none])] ∧
      (normalize_column_names_inplace 0
        (pipeline_init_refs 0 1 (fun _ => DataFrame.mk 1 [(pystr "A B", [Option.none])]))).1 = 0 ∧
      (normalize_column_names_inplace 0
        (pipeline_init_refs 0 1 (fun _ => DataFrame.mk 1 [(pystr "A B", [Option.none])]))).2 0 =
        normalize_column_names (DataFrame.mk 1 [(pystr "A B", [Option.none])]) ∧
      (normalize_column_names_inplace 0
        (pipeline_init_refs 0 1 (fun _ => DataFrame.mk 1 [(pystr "A B", [Option.none])]))).2 1 =
        DataFrame.mk 1 [(pystr "A B", [Option.none])]) :=
  ⟨by decide, colname_ops_are_inplace (fun _ => DataFrame.mk 1 [(pystr "A B", [Option.none])]) 0 1
    (by decide)⟩

/-- A column's non-null and null cell counts partition its length. -/
theorem nonNullCount_add_nullCount (c : List (Option Cell)) :
    nonNullCount c + nullCount c = c.length := by
  induction c with
  | nil => rfl
  | cons a l ih =>
    cases a <;> simp [nonNullCount, nullCount, List.filter_cons] at * <;> omega

/-- The dropna threshold value `int(threshold * len(df))`, rewritten as a
floor for nonnegative thresholds. -/
theorem thresh_eq_floor (t : ℚ) (n : Nat) (h0 : 0 ≤ t) :
    pyInt (pyMul t (mkRat n 1)) = ⌊t * (n : ℚ)⌋ := by
  rw [pyMul_eq, mkRat_one_eq]
  rw [pyInt_eq_floor _ (by positivity)]
  norm_num

/-- C7 (amended): for a well-formed table and a threshold `t ∈ [0,1]`,
`remove_empty_cols` (the spec's `remove_sparse_columns`) never removes a
column with zero null cells; it removes every entirely-null column whenever
the truncated minimum count `int(t * row_count)` is at least 1 (`t > 0`
alone does not suffice — see the counterexample); and a column is kept
exactly when its non-null cell count is at least `int(t * row_count)`,
i.e. dropped exactly when that count is below the truncated product. -/
theorem remove_empty_cols_spec (df : DataFrame) (t : ℚ) (hwf : df.WF)
    (h0 : 0 ≤ t) (h1 : t ≤ 1) :
    (∀ c ∈ df.cols, nullCount c.2 = 0 → c ∈ (remove_empty_cols df t).cols) ∧
    (1 ≤ pyInt (pyMul t (mkRat df.nrows 1)) →
      ∀ c ∈ df.cols, nonNullCount c.2 = 0 → c ∉ (remove_empty_cols df t).cols) ∧
    (∀ c ∈ df.cols,
      (c ∈ (remove_empty_cols df t).cols ↔
        pyInt (pyMul t (mkRat df.nrows 1)) ≤ (nonNullCount c.2 : ℤ))) := by
  have hiff : ∀ c ∈ df.cols,
      (c ∈ (remove_empty_cols df t).cols ↔
        pyInt (pyMul t (mkRat df.nrows 1)) ≤ (nonNullCount c.2 : ℤ)) := by
    intro c hc
    rw [remove_empty_cols]
    simp only [List.mem_filter, decide_eq_true_eq]
    exact ⟨fun h => h.2, fun h => ⟨hc, h⟩⟩
  refine ⟨?_, ?_, hiff⟩
  · intro c hc hnull
    rw [hiff c hc]
    have hcount : nonNullCount c.2 = df.nrows := by
      have := nonNullCount_add_nullCount c.2
      have hlen := hwf c hc
      omega
    rw [hcount, thresh_eq_floor t df.nrows h0]
    have hle : t * (df.nrows : ℚ) ≤ (df.nrows : ℚ) := by
      calc t * (df.nrows : ℚ) ≤ 1 * (df.nrows : ℚ) :=
            mul_le_mul_of_nonneg_right h1 (by positivity)
        _ = (df.nrows : ℚ) := one_mul _
    calc ⌊t * (df.nrows : ℚ)⌋ ≤ ⌊(df.nrows : ℚ)⌋ := Int.floor_le_floor hle
      _ = (df.nrows : ℤ) := Int.floor_natCast df.nrows
  · intro hthresh c hc hzero
    rw [hiff c hc, hzero]
    omega

/-- Witness for `remove_empty_cols_spec` at a concrete table and threshold. -/
theorem remove_empty_cols_spec_witness :
    ((DataFrame.mk 2 [(pystr "a", [some (Cell.num (mkRat 1 1)), Option.none])]).WF ∧
      (0 : ℚ) ≤ mkRat 9 10 ∧ mkRat 9 10 ≤ 1) ∧
    ((∀ c ∈ (DataFrame.mk 2 [(pystr "a", [some (Cell.num (mkRat 1 1)), Option.none])]).cols,
        nullCount c.2 = 0 →
        c ∈ (remove_empty_cols
          (DataFrame.mk 2 [(pystr "a", [some (Cell.num (mkRat 1 1)), Option.none])])
          (mkRat 9 10)).cols) ∧
      (1 ≤ pyInt (pyMul (mkRat 9 10) (mkRat 2 1)) →
        ∀ c ∈ (DataFrame.mk 2 [(pystr "a", [some (Cell.num (mkRat 1 1)), Option.none])]).cols,
          nonNullCount c.2 = 0 →
          c ∉ (remove_empty_cols
            (DataFrame.mk 2 [(pystr "a", [some (Cell.num (mkRat 1 1)), Option.none])])
            (mkRat 9 10)).cols) ∧
      (∀ c ∈ (DataFrame.mk 2 [(pystr "a", [some (Cell.num (mkRat 1 1)), Option.none])]).cols,
        (c ∈ (remove_empty_cols
            (DataFrame.mk 2 [(pystr "a", [some (Cell.num (mkRat 1 1)), Option.none])])
            (mkRat 9 10)).cols ↔
          pyInt (pyMul (mkRat 9 10) (mkRat 2 1)) ≤ (nonNullCount c.2 : ℤ)))) :=
  ⟨⟨by unfold DataFrame.WF; decide, by decide, by decide⟩,
    remove_empty_cols_spec (DataFrame.mk 2 [(pystr "a", [some (Cell.num (mkRat 1 1)), Option.none])])
      (mkRat 9 10) (by unfold DataFrame.WF; decide) (by decide) (by decide)⟩

/-- Counterexample to C7 as stated: with 4 rows and threshold `t = 1/5 > 0`
(`int(0.2 * 4) = 0`), an entirely-null column is NOT removed —
`remove_empty_cols` returns the table unchanged. -/
theorem remove_empty_cols_entirely_null_kept :
    ((0 : ℚ) < mkRat 1 5 ∧ mkRat 1 5 ≤ 1) ∧
    nonNullCount [Option.none, Option.none, Option.none, Option.none] = 0 ∧
    remove_empty_cols
      (DataFrame.mk 4 [(pystr "all_null", [Option.none, Option.none, Option.none, Option.none])])
      (mkRat 1 5) =
      DataFrame.mk 4 [(pystr "all_null", [Option.none, Option.none, Option.none, Option.none])] := by
  exact ⟨⟨by decide, by decide⟩, by decide, by decide⟩

/-- Inversion of a successful `execute_operation` call: the name was
registered, the operation dispatched successfully on the current table, and
the new state carries the new table and the appended record. -/
theorem execute_ok_inv {p p2 : CleaningPipeline} {op : PyStr} {args : List PyVal}
    {kwargs : KwArgs} {now : Nat} {d : DataFrame}
    (h : execute_operation p op args kwargs now = (p2, Except.ok d)) :
    op ∈ p.operations ∧ dispatchOp op p.df args kwargs = some d ∧
    p2 = { p with df := d,
                  history_list := p.history_list ++
                    [mkEntry op (PyVal.df p.df :: args) kwargs now (PyVal.df d)] } := by
  by_cases hmem : op ∈ p.operations
  · rw [execute_operation, if_pos hmem] at h
    have hcc : CleaningCommand op (liftOp op) p.history_list (PyVal.df p.df :: args) kwargs now =
        (match dispatchOp op p.df args kwargs with
         | some r => (Except.ok (PyVal.df r), p.history_list ++
             [mkEntry op (PyVal.df p.df :: args) kwargs now (PyVal.df r)])
         | Option.none => (Except.error PyErr.typeError, p.history_list)) := by
      rw [CleaningCommand]
      cases hdisp : dispatchOp op p.df args kwargs <;> simp [liftOp, hdisp]
    rw [hcc] at h
    cases hdisp : dispatchOp op p.df args kwargs with
    | none => rw [hdisp] at h; simp at h
    | some r =>
      rw [hdisp] at h
      simp only [Prod.mk.injEq] at h
      obtain ⟨hp2, hd⟩ := h
      have hrd : r = d := Except.ok.inj hd
      subst hrd
      exact ⟨hmem, rfl, hp2.symm⟩
  · rw [execute_operation, if_neg hmem] at h
    simp at h

/-- Every reachable pipeline still carries the registry fixed at
construction. -/
theorem reaches_operations {p : CleaningPipeline} (h : Reaches p) :
    p.operations = avaiable_functions := by
  induction h with
  | init df => rfl
  | step op args kwargs now hr hexec ih =>
    obtain ⟨-, -, hp2⟩ := execute_ok_inv hexec
    subst hp2
    exact ih

/-- C1: replay determinism.  For every pipeline reachable from a fresh table
by successful `execute_operation` calls, replaying the recorded history in
order against a fresh copy of the original table reproduces the current
table exactly. -/
theorem replay_reproduces_current (p : CleaningPipeline) (h : Reaches p) :
    replay p.df_original p.history_list = some p.df := by
  induction h with
  | init df => rfl
  | step op args kwargs now hr hexec ih =>
    obtain ⟨hmem, hdisp, hp2⟩ := execute_ok_inv hexec
    have hops := reaches_operations hr
    subst hp2
    rw [replay] at ih ⊢
    simp only [List.foldl_append, List.foldl_cons, List.foldl_nil]
    rw [ih]
    simp only [Option.bind_some, Option.some_bind]
    rw [replayRecord]
    simp only [mkEntry]
    rw [if_pos (by rw [← hops]; exact hmem)]
    simpa using hdisp

/-- Witness for `replay_reproduces_current` at a freshly constructed
pipeline. -/
theorem replay_reproduces_current_witness :
    replay (initPipeline (DataFrame.mk 1 [(pystr "a", [Option.none])])).df_original
        (initPipeline (DataFrame.mk 1 [(pystr "a", [Option.none])])).history_list =
      some (initPipeline (DataFrame.mk 1 [(pystr "a", [Option.none])])).df :=
  replay_reproduces_current _ (Reaches.init (DataFrame.mk 1 [(pystr "a", [Option.none])]))

/-- C4: executing an unregistered operation name raises
`ValueError("Operation '<name>' is not available in the pipeline.")` and
leaves the pipeline (current table and history alike) exactly as it was. -/
theorem execute_unknown_op (p : CleaningPipeline) (op : PyStr) (args : List PyVal)
    (kwargs : KwArgs) (now : Nat) (h : op ∉ p.operations) :
    execute_operation p op args kwargs now =
      (p, Except.error (PyErr.valueError (opNotAvailableMsg op))) := by
  rw [execute_operation, if_neg h]

/-- Witness for `execute_unknown_op` on a fresh pipeline and the name
`drop_duplicates`, which is not registered. -/
theorem execute_unknown_op_witness :
    pystr "drop_duplicates" ∉ (initPipeline (DataFrame.mk 0 [])).operations ∧
    execute_operation (initPipeline (DataFrame.mk 0 [])) (pystr "drop_duplicates") [] [] 0 =
      (initPipeline (DataFrame.mk 0 []),
        Except.error (PyErr.valueError (opNotAvailableMsg (pystr "drop_duplicates")))) :=
  ⟨by decide, execute_unknown_op _ _ _ _ _ (by decide)⟩

/-- C5: the Recorder propagates any error of the wrapped function to the
caller with the log unchanged (no record is appended for a failed call), and
on success it returns the wrapped function's result unchanged. -/
theorem cleaning_command_propagates (fname : PyStr)
    (f : List PyVal → KwArgs → Except PyErr PyVal) (hist : List LogEntry)
    (args : List PyVal) (kwargs : KwArgs) (now : Nat) :
    (∀ e, f args kwargs = Except.error e →
      CleaningCommand fname f hist args kwargs now = (Except.error e, hist)) ∧
    (∀ v, f args kwargs = Except.ok v →
      (CleaningCommand fname f hist args kwargs now).1 = Except.ok v) := by
  constructor
  · intro e he
    rw [CleaningCommand, he]
  · intro v hv
    rw [CleaningCommand, hv]

/-- Witness for `cleaning_command_propagates`: a wrapped function that raises
leaves the (empty) log empty and surfaces its error; one that succeeds has
its result returned unchanged. -/
theorem cleaning_command_propagates_witness :
    CleaningCommand (pystr "f") (fun _ _ => Except.error PyErr.typeError) [] [] [] 0 =
      (Except.error PyErr.typeError, []) ∧
    (CleaningCommand (pystr "g") (fun _ _ => Except.ok (PyVal.scalar PyScalar.none)) [] [] [] 0).1 =
      Except.ok (PyVal.scalar PyScalar.none) :=
  ⟨(cleaning_command_propagates (pystr "f") (fun _ _ => Except.error PyErr.typeError)
      [] [] [] 0).1 PyErr.typeError rfl,
    (cleaning_command_propagates (pystr "g") (fun _ _ => Except.ok (PyVal.scalar PyScalar.none))
      [] [] [] 0).2 (PyVal.scalar PyScalar.none) rfl⟩

/-- C6 (amended): for a successful call whose first positional argument and
result are DataFrames, the appended record carries the function name, the
exact positional and keyword arguments, the before/after shapes and the
timestamp — and nothing else: the percent-missing statistics the wrapper
computes are not part of the record (see the counterexample). -/
theorem recorder_entry_fields (fname : PyStr)
    (f : List PyVal → KwArgs → Except PyErr PyVal) (hist : List LogEntry)
    (args : List PyVal) (kwargs : KwArgs) (now : Nat) (dIn v : DataFrame)
    (rest : List PyVal) (hargs : args = PyVal.df dIn :: rest)
    (hok : f args kwargs = Except.ok (PyVal.df v)) :
    (CleaningCommand fname f hist args kwargs now).2 =
      hist ++ [{ timestamp := now, funcName := fname, argsLogged := args,
                 kwargsLogged := kwargs, shapeInfo := some (dIn.shape, v.shape) }] := by
  subst hargs
  rw [CleaningCommand, hok]
  rfl

/-- Witness for `recorder_entry_fields` at a concrete call. -/
theorem recorder_entry_fields_witness :
    [PyVal.df (DataFrame.mk 1 [(pystr "x", [Option.none])])] =
      PyVal.df (DataFrame.mk 1 [(pystr "x", [Option.none])]) :: [] ∧
    (CleaningCommand (pystr "remove_empty_rows")
        (fun _ _ => Except.ok (PyVal.df (DataFrame.mk 0 [(pystr "x", [])])))
        [] [PyVal.df (DataFrame.mk 1 [(pystr "x", [Option.none])])] [] 3).2 =
      [] ++ [{ timestamp := 3, funcName := pystr "remove_empty_rows",
               argsLogged := [PyVal.df (DataFrame.mk 1 [(pystr "x", [Option.none])])],
               kwargsLogged := [],
               shapeInfo := some ((DataFrame.mk 1 [(pystr "x", [Option.none])]).shape,
                 (DataFrame.mk 0 [(pystr "x", [])]).shape) }] :=
  ⟨rfl, recorder_entry_fields (pystr "remove_empty_rows")
    (fun _ _ => Except.ok (PyVal.df (DataFrame.mk 0 [(pystr "x", [])]))) []
    [PyVal.df (DataFrame.mk 1 [(pystr "x", [Option.none])])] [] 3
    (DataFrame.mk 1 [(pystr "x", [Option.none])]) (DataFrame.mk 0 [(pystr "x", [])]) []
    rfl rfl⟩

/-- Counterexample to C6 as stated: two successful calls on the same input
with result tables of the same shape but different missing-value statistics
append IDENTICAL records, so the record cannot contain the percent-missing
statistics (the wrapper computes them but the appended entry omits them). -/
theorem recorder_entry_omits_percent_missing :
    percent_missing (DataFrame.mk 1 [(pystr "x", [some (Cell.num (mkRat 1 1))])]) ≠
      percent_missing (DataFrame.mk 1 [(pystr "x", [Option.none])]) ∧
    (CleaningCommand (pystr "op")
        (fun _ _ => Except.ok (PyVal.df (DataFrame.mk 1 [(pystr "x", [some (Cell.num (mkRat 1 1))])])))
        [] [PyVal.df (DataFrame.mk 1 [(pystr "y", [some (Cell.num (mkRat 2 1))])])] [] 0).2 =
      (CleaningCommand (pystr "op")
        (fun _ _ => Except.ok (PyVal.df (DataFrame.mk 1 [(pystr "x", [Option.none])])))
        [] [PyVal.df (DataFrame.mk 1 [(pystr "y", [some (Cell.num (mkRat 2 1))])])] [] 0).2 := by
  exact ⟨by decide, by decide⟩

/-- C2 fails on the code: `Janitor.reset` assigns `self.pipeline.history = []`
and `self.pipeline.current_operation = None`, but the pipeline's log is the
attribute `history_list`, which reset never touches.  After one successful
operation, `reset()` restores the current table to (a copy of) the original,
yet the immediately following `get_history()` still returns the old
one-element history instead of an empty sequence. -/
theorem reset_does_not_clear_history :
    Janitor.get_history
        (Janitor.reset (Janitor.remove_empty_cols
          (Janitor.init (DataFrame.mk 2 [(pystr "A", [some (Cell.num (mkRat 1 1)), Option.none])]))
          (mkRat 9 10) 5)) =
      Janitor.get_history (Janitor.remove_empty_cols
        (Janitor.init (DataFrame.mk 2 [(pystr "A", [some (Cell.num (mkRat 1 1)), Option.none])]))
        (mkRat 9 10) 5) ∧
    Janitor.get_history (Janitor.remove_empty_cols
        (Janitor.init (DataFrame.mk 2 [(pystr "A", [some (Cell.num (mkRat 1 1)), Option.none])]))
        (mkRat 9 10) 5) ≠ [] ∧
    (Janitor.reset (Janitor.remove_empty_cols
        (Janitor.init (DataFrame.mk 2 [(pystr "A", [some (Cell.num (mkRat 1 1)), Option.none])]))
        (mkRat 9 10) 5)).pipeline.df =
      DataFrame.mk 2 [(pystr "A", [some (Cell.num (mkRat 1 1)), Option.none])] := by
  exact ⟨by decide, by decide, by decide⟩

/-- C3 fails on the code: `load_pipeline` is an unimplemented stub whose body
is a bare `return`, so `load(save(H))` is Python `None` for every history,
never `H`.  `save_pipeline` itself does write the normalized records to the
JSON path (first two conjuncts), but nothing reads them back. -/
theorem load_pipeline_stub_breaks_roundtrip :
    (save_pipeline examplePipelineHistory (pystr "pipeline.json") (fun _ => Option.none)).2 =
      Except.ok true ∧
    (save_pipeline examplePipelineHistory (pystr "pipeline.json") (fun _ => Option.none)).1
        (pystr "pipeline.json") =
      some (examplePipelineHistory.map normalize_record) ∧
    load_pipeline (some examplePipelineHistory) = Option.none ∧
    (Option.none : Option (List JValue)) ≠ some examplePipelineHistory := by
  refine ⟨rfl, rfl, rfl, ?_⟩
  intro hcontra
  exact Option.noConfusion hcontra

/-- A list with a non-empty left part is non-empty. -/
theorem append_ne_nil_left {l r : PyStr} (h : l ≠ []) : l ++ r ≠ [] := by
  cases l with
  | nil => exact absurd rfl h
  | cons a as => simp

/-- Every branch of `_python_to_r_operation` returns a non-empty line, so the
generator's truthiness filter (`if r_line:`) never drops a stage. -/
theorem python_to_r_operation_ne_nil (f : PyStr) (p : KwArgs) :
    python_to_r_operation f p ≠ [] := by
  rw [python_to_r_operation]
  split_ifs <;> (repeat apply append_ne_nil_left) <;> decide

/-- Any member of a joined list occurs contiguously in the joined string. -/
theorem joinSep_mem_decomp (sep : PyStr) (l : List PyStr) (x : PyStr) (hx : x ∈ l) :
    ∃ a b, joinSep sep l = a ++ x ++ b := by
  induction l with
  | nil => cases hx
  | cons y ys ih =>
    cases hx with
    | head =>
      cases ys with
      | nil => exact ⟨[], [], by simp [joinSep]⟩
      | cons z zs => exact ⟨[], sep ++ joinSep sep (z :: zs), by simp [joinSep]⟩
    | tail _ hmem =>
      cases ys with
      | nil => cases hmem
      | cons z zs =>
        obtain ⟨a, b, hab⟩ := ih hmem
        exact ⟨y ++ sep ++ a, b, by simp [joinSep, hab]⟩

/-- Occurring contiguously implies the substring test succeeds. -/
theorem strContains_of_decomp (hay x a b : PyStr) (h : hay = a ++ x ++ b) :
    strContains hay x = true := by
  subst h
  rw [strContains, List.any_eq_true]
  refine ⟨a.length, List.mem_range.mpr ?_, ?_⟩
  · simp only [List.append_assoc, List.length_append]
    omega
  · rw [decide_eq_true_iff, List.append_assoc, List.drop_left, List.take_left]

/-- C8: R-target code generation over a non-empty loaded history succeeds;
every stage's line (mapped or not) occurs in the output — no stage is
dropped and generation continues past unmapped stages — and a stage whose
operation name has no R mapping contributes exactly the explicit
`"# TODO: Implement R equivalent for <name>(<params>)"` placeholder comment,
which names the operation and its parameters. -/
theorem generate_code_r_placeholders (hist : List (PyStr × KwArgs)) (hne : hist ≠ []) :
    ∃ out, generate_code (pystr "R") hist = Except.ok out ∧
      (∀ fp ∈ hist, strContains out (python_to_r_operation fp.1 fp.2) = true) ∧
      (∀ fp ∈ hist, fp.1 ∉ rMappedNames →
        python_to_r_operation fp.1 fp.2 =
          pystr "# TODO: Implement R equivalent for " ++ fp.1 ++ pystr "(" ++
            reprDict fp.2 ++ pystr ")" ∧
        strContains out (pystr "# TODO: Implement R equivalent for " ++ fp.1 ++ pystr "(" ++
          reprDict fp.2 ++ pystr ")") = true) := by
  have hfilter :
      (hist.map (fun fp => python_to_r_operation fp.1 fp.2)).filter (fun l => ¬ l = []) =
        hist.map (fun fp => python_to_r_operation fp.1 fp.2) := by
    apply List.filter_eq_self.mpr
    intro a ha
    obtain ⟨fp, -, hfp⟩ := List.mem_map.mp ha
    subst hfp
    exact decide_eq_true (python_to_r_operation_ne_nil fp.1 fp.2)
  have hout : generate_code (pystr "R") hist =
      Except.ok (joinSep (pystr " %>%\n  ")
        (hist.map (fun fp => python_to_r_operation fp.1 fp.2))) := by
    rw [generate_code, if_neg hne, if_neg (by decide), if_pos rfl, hfilter]
  refine ⟨_, hout, ?_, ?_⟩
  · intro fp hfp
    obtain ⟨a, b, hab⟩ := joinSep_mem_decomp (pystr " %>%\n  ")
      (hist.map (fun fp => python_to_r_operation fp.1 fp.2))
      (python_to_r_operation fp.1 fp.2)
      (List.mem_map.mpr ⟨fp, hfp, rfl⟩)
    exact strContains_of_decomp _ _ a b hab
  · intro fp hfp hunmapped
    have heq : python_to_r_operation fp.1 fp.2 =
        pystr "# TODO: Implement R equivalent for " ++ fp.1 ++ pystr "(" ++
          reprDict fp.2 ++ pystr ")" := by
      simp only [rMappedNames, List.mem_cons, List.not_mem_nil, or_false, not_or] at hunmapped
      obtain ⟨h1, h2, h3, h4, h5, h6⟩ := hunmapped
      rw [python_to_r_operation, if_neg h1, if_neg h2, if_neg h3, if_neg h4, if_neg h5, if_neg h6]
    refine ⟨heq, ?_⟩
    rw [← heq]
    obtain ⟨a, b, hab⟩ := joinSep_mem_decomp (pystr " %>%\n  ")
      (hist.map (fun fp => python_to_r_operation fp.1 fp.2))
      (python_to_r_operation fp.1 fp.2)
      (List.mem_map.mpr ⟨fp, hfp, rfl⟩)
    exact strContains_of_decomp _ _ a b hab

/-- Witness for `generate_code_r_placeholders` on a one-stage history whose
operation has no R mapping. -/
theorem generate_code_r_placeholders_witness :
    ([(pystr "promote_headers", ([] : KwArgs))] : List (PyStr × KwArgs)) ≠ [] ∧
    (∃ out, generate_code (pystr "R") [(pystr "promote_headers", ([] : KwArgs))] = Except.ok out ∧
      (∀ fp ∈ ([(pystr "promote_headers", ([] : KwArgs))] : List (PyStr × KwArgs)),
        strContains out (python_to_r_operation fp.1 fp.2) = true) ∧
      (∀ fp ∈ ([(pystr "promote_headers", ([] : KwArgs))] : List (PyStr × KwArgs)),
        fp.1 ∉ rMappedNames →
        python_to_r_operation fp.1 fp.2 =
          pystr "# TODO: Implement R equivalent for " ++ fp.1 ++ pystr "(" ++
            reprDict fp.2 ++ pystr ")" ∧
        strContains out (pystr "# TODO: Implement R equivalent for " ++ fp.1 ++ pystr "(" ++
          reprDict fp.2 ++ pystr ")") = true)) :=
  ⟨by decide, generate_code_r_placeholders [(pystr "promote_headers", ([] : KwArgs))] (by decide)⟩
